import Mathlib

/-!
# Verification of lirc-indicator (src/lirc-indicator.c)

A shallow embedding of the program. The process is modelled as a state
carrying the two globals (`gpio_pin`, `isExported`), the socket status, the
128-byte read buffer, an observable event trace, and the exit status once
`exit` has been called. Each C function becomes a state transformer; since
`exit` never returns, every transformer is the identity on an already-exited
state. Fallible filesystem and socket operations are parameterised by
success flags (`Fs`, and the `sockOk`/`connOk` arguments of the main
sequence); the two failure branches of each helper (`fopen` failing and
`fprintf` failing) have identical observable behaviour in the source, so a
single flag per interface models them.
-/

/-- Observable events: writes to the sysfs GPIO control files, the usleep
suspension, reports to the error stream, the blocking socket read (with its
return value) and the backlog-discarding lseek. -/
inductive Ev where
  | exportWrite (pin : Int)
  | unexportWrite (pin : Int)
  | directionWrite (pin : Int)
  | valueWrite (pin : Int) (v : Int)
  | sleep (usec : Nat)
  | stderrReport
  | readCall (n : Int)
  | seekEnd
deriving Repr, DecidableEq

/-- Process state: the globals `gpio_pin` (line 38) and `isExported`
(line 39), whether the LIRC socket is connected, the 128-byte buffer `buf`
(line 159), the event trace, and the exit status (`none` while running). -/
structure MState where
  gpio_pin : Int
  isExported : Bool
  connOpen : Bool
  buf : List Nat
  trace : List Ev
  exited : Option Int
deriving Repr, DecidableEq

/-- Success flags for the sysfs file operations, plus the `errno` value
reported when one fails. -/
structure Fs where
  exportOk : Bool
  unexportOk : Bool
  directionOk : Bool
  valueOk : Bool
  errno : Int
deriving Repr, DecidableEq

/-- Append one observable event to the trace. -/
def emit (e : Ev) (s : MState) : MState :=
  { s with trace := s.trace ++ [e] }

/-- The C function unexportGPIO (src lines 80-95): write the pin number to the unexport
interface; on failure report to stderr and `exit(errno)` directly. -/
def unexportGpio (fs : Fs) (pin : Int) (s : MState) : MState :=
  if s.exited.isSome then s
  else if fs.unexportOk then emit (Ev.unexportWrite pin) s
  else { emit Ev.stderrReport s with exited := some fs.errno }

/-- The guarded release step inside `cleanup` (src lines 45-47): unexport
only when `isExported && gpio_pin >= 0`. Note that the source never clears
`isExported` afterwards. -/
def releaseStep (fs : Fs) (s : MState) : MState :=
  if s.isExported ∧ 0 ≤ s.gpio_pin then unexportGpio fs s.gpio_pin s else s

/-- `cleanup` (src lines 43-50): release the pin if exported, then
`exit(retval)`. -/
def cleanup (fs : Fs) (retval : Int) (s : MState) : MState :=
  if s.exited.isSome then s
  else if (releaseStep fs s).exited.isSome then releaseStep fs s
  else { releaseStep fs s with exited := some retval }

/-- `onExit` (src lines 53-55): the SIGINT handler, which just runs
`cleanup(1)`. -/
def onExit (fs : Fs) (s : MState) : MState := cleanup fs 1 s

/-- The C function exportGPIO (src lines 60-75): write the pin number to the export
interface; on failure report and `cleanup(errno)`. -/
def exportGpio (fs : Fs) (pin : Int) (s : MState) : MState :=
  if s.exited.isSome then s
  else if fs.exportOk then emit (Ev.exportWrite pin) s
  else cleanup fs fs.errno (emit Ev.stderrReport s)

/-- `setAsOutput` (src lines 98-115): write `out` to the per-pin direction
file; on failure report and `cleanup(errno)`. -/
def setAsOutput (fs : Fs) (pin : Int) (s : MState) : MState :=
  if s.exited.isSome then s
  else if fs.directionOk then emit (Ev.directionWrite pin) s
  else cleanup fs fs.errno (emit Ev.stderrReport s)

/-- `setValue` (src lines 118-140): values other than 0 and 1 are reported
and answered with `cleanup(0)`; otherwise the value is written to the
per-pin value file, with failure reported and answered with
`cleanup(errno)`. -/
def setValue (fs : Fs) (pin v : Int) (s : MState) : MState :=
  if s.exited.isSome then s
  else if v ≠ 0 ∧ v ≠ 1 then cleanup fs 0 (emit Ev.stderrReport s)
  else if fs.valueOk then emit (Ev.valueWrite pin v) s
  else cleanup fs fs.errno (emit Ev.stderrReport s)

/-- `usleep`, recorded as a sleep event. -/
def usleep (usec : Nat) (s : MState) : MState :=
  if s.exited.isSome then s else emit (Ev.sleep usec) s

/-- `flash` (src lines 143-148): value 1, 100000 microseconds of sleep,
value 0. -/
def flash (fs : Fs) (pin : Int) (s : MState) : MState :=
  setValue fs pin 0 (usleep 100000 (setValue fs pin 1 s))

/-- The C-string view of the buffer: the bytes before the first NUL. This is
the region `strstr` actually scans. -/
def cstr (bs : List Nat) : List Nat := bs.takeWhile (fun b => b ≠ 0)

/-- Does `needle` occur as a leading block of the second list? -/
def hasPrefixB : List Nat → List Nat → Bool
  | [], _ => true
  | _ :: _, [] => false
  | a :: as, b :: bs => a == b && hasPrefixB as bs

/-- Does `needle` occur as a contiguous block anywhere in the list?
This is the search `strstr` performs over the scanned region. -/
def containsSub (needle : List Nat) : List Nat → Bool
  | [] => needle.isEmpty
  | b :: bs => hasPrefixB needle (b :: bs) || containsSub needle bs

/-- The button-release marker scanned for at src line 303: the bytes of
the four characters underscore, U, P, space. -/
def upMarker : List Nat := [95, 85, 80, 32]

/-- The event filter at src line 303: `!strstr(buf, "_UP ")`. It scans the
whole buffer up to the first NUL, not just the bytes of the last read. -/
def isActionable (buf : List Nat) : Bool := !(containsSub upMarker (cstr buf))

/-- The effect of `read` returning `n` bytes into the 128-byte buffer: the
first `n` cells are overwritten, the rest keep their previous contents. -/
def writeBytes (buf bytes : List Nat) (n : Nat) : List Nat :=
  bytes.take n ++ buf.drop n

/-- Outcome of one blocking `read` on the LIRC socket. -/
inductive ReadOutcome where
  | err (errno : Int)
  | eof
  | data (bytes : List Nat)
deriving Repr, DecidableEq

/-- The buffer update and read event for a successful `read` of
`bytes.length` bytes (src line 293). -/
def readData (bytes : List Nat) (s : MState) : MState :=
  emit (Ev.readCall (bytes.length : Int)) { s with buf := writeBytes s.buf bytes bytes.length }

/-- One iteration of the main loop (src lines 292-309): read; on -1 report
and `cleanup(errno)`; on 0 `cleanup(0)`; on data, flash unless the scanned
buffer contains the release marker, then discard the backlog. -/
def loopIter (fs : Fs) (r : ReadOutcome) (s : MState) : MState :=
  if s.exited.isSome then s
  else
    match r with
    | ReadOutcome.err e => cleanup fs e (emit Ev.stderrReport (emit (Ev.readCall (-1)) s))
    | ReadOutcome.eof => cleanup fs 0 (emit (Ev.readCall 0) s)
    | ReadOutcome.data bytes =>
        emit Ev.seekEnd
          (if isActionable (writeBytes s.buf bytes bytes.length) then
            flash fs s.gpio_pin (readData bytes s)
          else readData bytes s)

/-- `socket(AF_UNIX, SOCK_STREAM, 0)` (src lines 274-278): on failure,
perror and `exit(errno)` directly, without cleanup. -/
def socketStep (ok : Bool) (errno : Int) (s : MState) : MState :=
  if s.exited.isSome then s
  else if ok then s
  else { emit Ev.stderrReport s with exited := some errno }

/-- `connect` on the LIRC socket (src lines 279-282): on success the
connection is open; on failure, report and `exit(errno)` directly, without
cleanup. -/
def connectStep (ok : Bool) (errno : Int) (s : MState) : MState :=
  if s.exited.isSome then s
  else if ok then { s with connOpen := true }
  else { emit Ev.stderrReport s with exited := some errno }

/-- `isExported = 1` (src line 286). -/
def setFlagStep (s : MState) : MState :=
  if s.exited.isSome then s else { s with isExported := true }

/-- The statements of `main` after the SIGINT handler is installed
(src lines 273-288), in source order: socket, connect, export, set the
exported flag, configure the direction. -/
def mainStmts (fs : Fs) (sockOk connOk : Bool) : List (MState → MState) :=
  [socketStep sockOk fs.errno,
   connectStep connOk fs.errno,
   fun s => exportGpio fs s.gpio_pin s,
   setFlagStep,
   fun s => setAsOutput fs s.gpio_pin s]

/-- Run a list of statements in order. -/
def runStmts (fns : List (MState → MState)) (s : MState) : MState :=
  fns.foldl (fun t f => f t) s

/-- Process state at entry of the modelled sequence: pin already parsed
into `gpio_pin`, nothing exported, socket not connected, buffer holding its
initial (uninitialized) contents `buf0`. -/
def initState (pin : Int) (buf0 : List Nat) : MState :=
  { gpio_pin := pin, isExported := false, connOpen := false,
    buf := buf0, trace := [], exited := none }

/-- The whole modelled program: the straight-line statements followed by
one loop iteration per read outcome. -/
def mainProg (fs : Fs) (sockOk connOk : Bool) (reads : List ReadOutcome) :
    List (MState → MState) :=
  mainStmts fs sockOk connOk ++ reads.map (loopIter fs)

/-- The state after the first `k` statements of the modelled program: the
instruction boundaries at which an asynchronous signal can be delivered. -/
def stateAfter (fs : Fs) (sockOk connOk : Bool) (reads : List ReadOutcome)
    (pin : Int) (buf0 : List Nat) (k : Nat) : MState :=
  runStmts ((mainProg fs sockOk connOk reads).take k) (initState pin buf0)

/-- The final state of a run. -/
def mainRun (fs : Fs) (sockOk connOk : Bool) (reads : List ReadOutcome)
    (pin : Int) (buf0 : List Nat) : MState :=
  runStmts (mainProg fs sockOk connOk reads) (initState pin buf0)

/-- The pin allow-list (src lines 218-243): exactly the case labels of the
validity switch. -/
def validPin (p : Int) : Bool :=
  p == 0 || p == 1 || p == 2 || p == 3 || p == 4 || p == 7 || p == 8 ||
  p == 9 || p == 10 || p == 11 || p == 14 || p == 15 || p == 17 ||
  p == 18 || p == 21 || p == 22 || p == 23 || p == 24 || p == 25 ||
  p == 27 || p == 28 || p == 29 || p == 30 || p == 31

/-- `EXIT_FAILURE` on the target platform. -/
def EXIT_FAILURE : Int := 1

/-- `DEFAULT_PIN` (src line 153). -/
def DEFAULT_PIN : Int := 4

/-- `main` from the pin-validity switch onward (src lines 217-309): an
invalid pin is reported and answered with `return EXIT_FAILURE` before any
socket or GPIO call; a valid pin proceeds into the modelled sequence. -/
def mainChecked (fs : Fs) (sockOk connOk : Bool) (reads : List ReadOutcome)
    (buf0 : List Nat) (pin : Int) : MState :=
  if validPin pin then mainRun fs sockOk connOk reads pin buf0
  else { initState pin buf0 with trace := [Ev.stderrReport], exited := some EXIT_FAILURE }

/-- The whitespace characters `strtold` skips before a number. -/
def isSpaceC (c : Char) : Bool :=
  c == ' ' || c == '\t' || c == '\n' || c == '\r' || c == '\x0b' || c == '\x0c'

/-- Drop leading whitespace. -/
def skipWs : List Char → List Char
  | [] => []
  | c :: cs => if isSpaceC c then skipWs cs else c :: cs

/-- Consume an optional sign, returning the sign and the rest. -/
def splitSign : List Char → (Int × List Char)
  | [] => (1, [])
  | c :: cs => if c == '-' then (-1, cs) else if c == '+' then (1, cs) else (1, c :: cs)

/-- Accumulate the value of the leading run of decimal digits. -/
def leadDigits : List Char → Nat → Nat
  | [], acc => acc
  | c :: cs, acc => if c.isDigit then leadDigits cs (acc * 10 + (c.toNat - 48)) else acc

/-- `gpio_pin = strtold(arg, NULL)` (src lines 201 and 206): leading
whitespace and an optional sign are consumed, then the leading run of
decimal digits gives the value; truncation to `int` discards any fractional
part, so the integer part with its sign is the stored pin. A string with no
leading number yields 0. (Hexadecimal, exponent, infinity and NaN forms of
`strtold` are outside this model; they do not arise for pin arguments.) -/
def strtoldPin (a : String) : Int :=
  (splitSign (skipWs a.data)).fst * ((leadDigits (splitSign (skipWs a.data)).snd 0 : Nat) : Int)

/-- A string with no leading number: after optional whitespace and an
optional sign there is no decimal digit. -/
def nonNumericArg (a : String) : Bool :=
  match (splitSign (skipWs a.data)).snd with
  | [] => true
  | d :: _ => !d.isDigit

/-- Positional-argument handling of `main` (src lines 194-215), after
`getopt` has consumed the flags: zero arguments use the default pin, one or
two arguments parse the first with `strtold`, any other count is reported
and answered with `return EXIT_FAILURE` (with `gpio_pin` still holding its
initial -1). -/
def mainWithArgs (fs : Fs) (sockOk connOk : Bool) (reads : List ReadOutcome)
    (buf0 : List Nat) (args : List String) : MState :=
  match args with
  | [] => mainChecked fs sockOk connOk reads buf0 DEFAULT_PIN
  | [a] => mainChecked fs sockOk connOk reads buf0 (strtoldPin a)
  | [a, _] => mainChecked fs sockOk connOk reads buf0 (strtoldPin a)
  | _ => { initState (-1) buf0 with trace := [Ev.stderrReport], exited := some EXIT_FAILURE }

/-- All filesystem operations succeeding, with errno 5 were one to fail. -/
def fsAll : Fs :=
  { exportOk := true, unexportOk := true, directionOk := true, valueOk := true, errno := 5 }

/-- A zero-filled 128-byte buffer. -/
def zeroBuf : List Nat := List.replicate 128 0

/-- A running state with pin 4 exported and the connection open. -/
def sExp : MState :=
  { gpio_pin := 4, isExported := true, connOpen := true,
    buf := zeroBuf, trace := [], exited := none }

/-- The bytes of the ten-character payload K, E, Y, underscore, 1,
underscore, U, P, space, x. -/
def key1upBytes : List Nat := [75, 69, 89, 95, 49, 95, 85, 80, 32, 120]

/-- The bytes of the three-character payload A, B, newline. -/
def abBytes : List Nat := [65, 66, 10]

/-- A five-byte payload whose first byte is NUL, followed by the release
marker. -/
def nulUpBytes : List Nat := [0, 95, 85, 80, 32]

/-! ## Helper lemmas -/

theorem connOpen_emit (e : Ev) (s : MState) : (emit e s).connOpen = s.connOpen := rfl

theorem connOpen_unexportGpio (fs : Fs) (pin : Int) (s : MState) :
    (unexportGpio fs pin s).connOpen = s.connOpen := by
  unfold unexportGpio emit
  split
  · rfl
  · split
    · rfl
    · rfl

theorem connOpen_releaseStep (fs : Fs) (s : MState) :
    (releaseStep fs s).connOpen = s.connOpen := by
  unfold releaseStep
  split
  · exact connOpen_unexportGpio fs s.gpio_pin s
  · rfl

theorem connOpen_cleanup (fs : Fs) (r : Int) (s : MState) :
    (cleanup fs r s).connOpen = s.connOpen := by
  unfold cleanup
  split
  · rfl
  · split
    · exact connOpen_releaseStep fs s
    · exact connOpen_releaseStep fs s

theorem connOpen_exportGpio (fs : Fs) (pin : Int) (s : MState) :
    (exportGpio fs pin s).connOpen = s.connOpen := by
  unfold exportGpio
  split
  · rfl
  · split
    · rfl
    · simp [connOpen_cleanup, connOpen_emit]

theorem connOpen_setAsOutput (fs : Fs) (pin : Int) (s : MState) :
    (setAsOutput fs pin s).connOpen = s.connOpen := by
  unfold setAsOutput
  split
  · rfl
  · split
    · rfl
    · simp [connOpen_cleanup, connOpen_emit]

theorem connOpen_setValue (fs : Fs) (pin v : Int) (s : MState) :
    (setValue fs pin v s).connOpen = s.connOpen := by
  unfold setValue
  split
  · rfl
  · split
    · simp [connOpen_cleanup, connOpen_emit]
    · split
      · rfl
      · simp [connOpen_cleanup, connOpen_emit]

theorem connOpen_usleep (usec : Nat) (s : MState) : (usleep usec s).connOpen = s.connOpen := by
  unfold usleep
  split
  · rfl
  · rfl

theorem connOpen_flash (fs : Fs) (pin : Int) (s : MState) :
    (flash fs pin s).connOpen = s.connOpen := by
  unfold flash
  simp [connOpen_setValue, connOpen_usleep]

theorem connOpen_readData (bytes : List Nat) (s : MState) :
    (readData bytes s).connOpen = s.connOpen := rfl

theorem connOpen_setFlagStep (s : MState) : (setFlagStep s).connOpen = s.connOpen := by
  unfold setFlagStep
  split
  · rfl
  · rfl

theorem connOpen_loopIter (fs : Fs) (r : ReadOutcome) (s : MState) :
    (loopIter fs r s).connOpen = s.connOpen := by
  unfold loopIter
  split
  · rfl
  · cases r with
    | err e => simp [connOpen_cleanup, connOpen_emit]
    | eof => simp [connOpen_cleanup, connOpen_emit]
    | data bytes =>
        rw [connOpen_emit]
        split
        · simp [connOpen_flash, connOpen_readData]
        · simp [connOpen_readData]

theorem exportGpio_frozen (fs : Fs) (pin : Int) (s : MState)
    (h : s.exited.isSome = true) : exportGpio fs pin s = s := by
  unfold exportGpio
  simp [h]

theorem setFlagStep_frozen (s : MState) (h : s.exited.isSome = true) : setFlagStep s = s := by
  unfold setFlagStep
  simp [h]

theorem setAsOutput_frozen (fs : Fs) (pin : Int) (s : MState)
    (h : s.exited.isSome = true) : setAsOutput fs pin s = s := by
  unfold setAsOutput
  simp [h]

theorem loopIter_frozen (fs : Fs) (r : ReadOutcome) (s : MState)
    (h : s.exited.isSome = true) : loopIter fs r s = s := by
  unfold loopIter
  simp [h]

theorem runStmts_cons (f : MState → MState) (fns : List (MState → MState)) (s : MState) :
    runStmts (f :: fns) s = runStmts fns (f s) := rfl

theorem runStmts_frozen (fns : List (MState → MState))
    (hall : ∀ f ∈ fns, ∀ t : MState, t.exited.isSome = true → f t = t) :
    ∀ s : MState, s.exited.isSome = true → runStmts fns s = s := by
  induction fns with
  | nil => intro s _; rfl
  | cons f fns ih =>
      intro s h
      rw [runStmts_cons, hall f (List.mem_cons_self f fns) s h]
      exact ih (fun g hg t ht => hall g (List.mem_cons_of_mem f hg) t ht) s h

theorem runStmts_conn (fns : List (MState → MState))
    (hall : ∀ f ∈ fns, ∀ t : MState, (f t).connOpen = t.connOpen) :
    ∀ s : MState, (runStmts fns s).connOpen = s.connOpen := by
  induction fns with
  | nil => intro s; rfl
  | cons f fns ih =>
      intro s
      rw [runStmts_cons, ih (fun g hg t => hall g (List.mem_cons_of_mem f hg) t) (f s)]
      exact hall f (List.mem_cons_self f fns) s

theorem mainTail_frozen (fs : Fs) (reads : List ReadOutcome) :
    ∀ f ∈ ((fun s => exportGpio fs s.gpio_pin s) :: setFlagStep ::
        (fun s => setAsOutput fs s.gpio_pin s) :: reads.map (loopIter fs)),
      ∀ t : MState, t.exited.isSome = true → f t = t := by
  intro f hf t ht
  rcases List.mem_cons.mp hf with rfl | hf
  · exact exportGpio_frozen fs t.gpio_pin t ht
  rcases List.mem_cons.mp hf with rfl | hf
  · exact setFlagStep_frozen t ht
  rcases List.mem_cons.mp hf with rfl | hf
  · exact setAsOutput_frozen fs t.gpio_pin t ht
  rcases List.mem_map.mp hf with ⟨r, hr, rfl⟩
  exact loopIter_frozen fs r t ht

theorem mainTail_conn (fs : Fs) (reads : List ReadOutcome) :
    ∀ f ∈ ((fun s => exportGpio fs s.gpio_pin s) :: setFlagStep ::
        (fun s => setAsOutput fs s.gpio_pin s) :: reads.map (loopIter fs)),
      ∀ t : MState, (f t).connOpen = t.connOpen := by
  intro f hf t
  rcases List.mem_cons.mp hf with rfl | hf
  · exact connOpen_exportGpio fs t.gpio_pin t
  rcases List.mem_cons.mp hf with rfl | hf
  · exact connOpen_setFlagStep t
  rcases List.mem_cons.mp hf with rfl | hf
  · exact connOpen_setAsOutput fs t.gpio_pin t
  rcases List.mem_map.mp hf with ⟨r, hr, rfl⟩
  exact connOpen_loopIter fs r t

theorem flash_spec (fs : Fs) (pin : Int) (s : MState)
    (he : s.exited = none) (hv : fs.valueOk = true) :
    flash fs pin s =
      { s with trace := s.trace ++ [Ev.valueWrite pin 1, Ev.sleep 100000, Ev.valueWrite pin 0] } := by
  unfold flash setValue usleep emit
  simp [he, hv]

theorem strtoldPin_of_nonNumeric (a : String) (h : nonNumericArg a = true) :
    strtoldPin a = 0 := by
  unfold strtoldPin
  unfold nonNumericArg at h
  rcases hsp : (splitSign (skipWs a.data)).snd with _ | ⟨d, ds⟩
  · simp [leadDigits]
  · rw [hsp] at h
    have hd : d.isDigit = false := by simpa using h
    simp [leadDigits, hd]

/-! ## Claims -/

/-- C2 counterexample: requesting value 2 on pin 4 in a running, exported
state is fatal: the process reports the invalid value, unexports the pin,
and exits with status 0 — contradicting the claim that the rejection does
not terminate the process and performs no GPIO state change. -/
theorem c2_counterexample :
    (setValue fsAll 4 2 sExp).exited = some 0
    ∧ (setValue fsAll 4 2 sExp).trace = [Ev.stderrReport, Ev.unexportWrite 4] := by
  decide

/-- C2 (amended): for every value other than 0 or 1, `setValue` reports the
invalid value to the error stream and invokes `cleanup(0)`: no value write
is performed for the request, the pin is unexported if currently exported,
and the process exits with status 0. -/
theorem c2_amended (fs : Fs) (pin v : Int) (s : MState)
    (he : s.exited = none) (hu : fs.unexportOk = true) (h0 : v ≠ 0) (h1 : v ≠ 1) :
    (setValue fs pin v s).exited = some 0
    ∧ (setValue fs pin v s).trace =
        s.trace ++ Ev.stderrReport ::
          (if s.isExported ∧ 0 ≤ s.gpio_pin then [Ev.unexportWrite s.gpio_pin] else []) := by
  unfold setValue cleanup releaseStep unexportGpio emit
  by_cases hc : s.isExported ∧ 0 ≤ s.gpio_pin <;>
    simp [he, hu, h0, h1, hc]

/-- C2 amended witness at value 2, pin 4, in the exported running state. -/
theorem c2_amended_holds :
    (setValue fsAll 4 2 sExp).exited = some 0
    ∧ (setValue fsAll 4 2 sExp).trace =
        sExp.trace ++ Ev.stderrReport ::
          (if sExp.isExported ∧ 0 ≤ sExp.gpio_pin then [Ev.unexportWrite sExp.gpio_pin] else []) :=
  c2_amended fsAll 4 2 sExp rfl rfl (by decide) (by decide)

/-- C3: classification is not a function of the read window alone. After a
first read of the ten bytes K,E,Y,_,1,_,U,P,space,x and a second read of the
three bytes A,B,newline, the scanned buffer still contains the release
marker as residue of the first read, so the second event is classified not
actionable — while the same three-byte read into a clean buffer is
actionable, although the two buffers agree on the entire three-byte read
window. -/
theorem c3_eval :
    isActionable (writeBytes zeroBuf key1upBytes 10) = false
    ∧ isActionable (writeBytes (writeBytes zeroBuf key1upBytes 10) abBytes 3) = false
    ∧ isActionable (writeBytes zeroBuf abBytes 3) = true
    ∧ (writeBytes (writeBytes zeroBuf key1upBytes 10) abBytes 3).take 3 =
        (writeBytes zeroBuf abBytes 3).take 3 := by
  decide

/-- C4: the release step of `cleanup` is not idempotent on its own. In an
exported state it performs one unexport write but leaves `isExported` set,
so running it twice performs two unexport writes; only the `exit` that
follows it inside `cleanup` prevents a second sequential invocation. -/
theorem c4_eval :
    (releaseStep fsAll sExp).trace = [Ev.unexportWrite 4]
    ∧ (releaseStep fsAll sExp).isExported = true
    ∧ (releaseStep fsAll (releaseStep fsAll sExp)).trace =
        [Ev.unexportWrite 4, Ev.unexportWrite 4]
    ∧ ∀ r : Int, cleanup fsAll r (cleanup fsAll r sExp) = cleanup fsAll r sExp := by
  refine ⟨by decide, by decide, by decide, ?_⟩
  intro r
  rfl

/-- C5: a pulse in a running state with working value writes performs
exactly the trace value 1, a 100000 microsecond sleep, value 0 — two value
writes in that order, a positive suspension strictly between them, and no
other pin operation — and does not exit. -/
theorem c5_pulse (fs : Fs) (pin : Int) (s : MState)
    (he : s.exited = none) (hv : fs.valueOk = true) :
    (flash fs pin s).trace =
      s.trace ++ [Ev.valueWrite pin 1, Ev.sleep 100000, Ev.valueWrite pin 0]
    ∧ (flash fs pin s).exited = none ∧ 0 < 100000 := by
  rw [flash_spec fs pin s he hv]
  exact ⟨rfl, he, by decide⟩

/-- C5 witness: the pulse on pin 4 from the exported running state. -/
theorem c5_pulse_holds :
    (flash fsAll 4 sExp).trace =
      sExp.trace ++ [Ev.valueWrite 4 1, Ev.sleep 100000, Ev.valueWrite 4 0]
    ∧ (flash fsAll 4 sExp).exited = none ∧ 0 < 100000 :=
  c5_pulse fsAll 4 sExp rfl rfl

/-- C6: for every pin not in the allow-list, the program reports to the
error stream and exits with `EXIT_FAILURE`; its trace holds only that
report, so no export, direction or value write has been performed. -/
theorem c6_invalid_pin (fs : Fs) (sockOk connOk : Bool) (reads : List ReadOutcome)
    (buf0 : List Nat) (pin : Int) (h : validPin pin = false) :
    (mainChecked fs sockOk connOk reads buf0 pin).exited = some EXIT_FAILURE
    ∧ (mainChecked fs sockOk connOk reads buf0 pin).trace = [Ev.stderrReport] := by
  unfold mainChecked
  simp [h]

/-- C6 witness at pin 5, which is not in the allow-list. -/
theorem c6_invalid_pin_holds :
    (mainChecked fsAll true true [] zeroBuf 5).exited = some EXIT_FAILURE
    ∧ (mainChecked fsAll true true [] zeroBuf 5).trace = [Ev.stderrReport] :=
  c6_invalid_pin fsAll true true [] zeroBuf 5 (by decide)

/-- C7: a zero-length read in a running state with the pin exported appends
the read event and the unexport write to the trace and then exits with
status 0 — the release occurs before process exit and the exit status is
the success code. -/
theorem c7_eof (fs : Fs) (s : MState)
    (he : s.exited = none) (hx : s.isExported = true) (hp : 0 ≤ s.gpio_pin)
    (hu : fs.unexportOk = true) :
    (loopIter fs ReadOutcome.eof s).trace =
      s.trace ++ [Ev.readCall 0, Ev.unexportWrite s.gpio_pin]
    ∧ (loopIter fs ReadOutcome.eof s).exited = some 0 := by
  unfold loopIter cleanup releaseStep unexportGpio emit
  simp [he, hx, hp, hu]

/-- C7 witness: EOF read from the state reached after the straight-line
prefix of a successful run on pin 4. -/
theorem c7_eof_holds :
    (loopIter fsAll ReadOutcome.eof (stateAfter fsAll true true [] 4 zeroBuf 5)).trace =
      (stateAfter fsAll true true [] 4 zeroBuf 5).trace ++
        [Ev.readCall 0, Ev.unexportWrite (stateAfter fsAll true true [] 4 zeroBuf 5).gpio_pin]
    ∧ (loopIter fsAll ReadOutcome.eof (stateAfter fsAll true true [] 4 zeroBuf 5)).exited = some 0 :=
  c7_eof fsAll (stateAfter fsAll true true [] 4 zeroBuf 5)
    (by decide) (by decide) (by decide) rfl

/-- C8 counterexample: a five-byte payload whose first byte is NUL followed
by the release-marker bytes contains the marker, yet the filter classifies
the event as actionable and a pulse is triggered, because `strstr` stops at
the leading NUL. -/
theorem c8_counterexample :
    containsSub upMarker nulUpBytes = true
    ∧ (loopIter fsAll (ReadOutcome.data nulUpBytes) sExp).trace =
        [Ev.readCall 5, Ev.valueWrite 4 1, Ev.sleep 100000, Ev.valueWrite 4 0, Ev.seekEnd] := by
  decide

/-- C8 (amended): classification applies to the NUL-terminated prefix of
the buffer after the read, not to the raw payload: if the buffer bytes
before the first NUL contain the marker, the event is not actionable and
only the read and backlog-discard appear in the trace; otherwise a pulse
(value 1, sleep, value 0) is triggered before the backlog-discard. -/
theorem c8_amended (fs : Fs) (s : MState) (bytes : List Nat)
    (he : s.exited = none) (hv : fs.valueOk = true) :
    (containsSub upMarker (cstr (writeBytes s.buf bytes bytes.length)) = true →
      (loopIter fs (ReadOutcome.data bytes) s).trace =
        s.trace ++ [Ev.readCall (bytes.length : Int), Ev.seekEnd])
    ∧ (containsSub upMarker (cstr (writeBytes s.buf bytes bytes.length)) = false →
      (loopIter fs (ReadOutcome.data bytes) s).trace =
        s.trace ++ [Ev.readCall (bytes.length : Int), Ev.valueWrite s.gpio_pin 1,
                    Ev.sleep 100000, Ev.valueWrite s.gpio_pin 0, Ev.seekEnd]) := by
  have hrd : (readData bytes s).exited = none := he
  constructor
  · intro hm
    unfold loopIter
    simp [he, isActionable, hm, readData, emit]
  · intro hm
    have hstep : loopIter fs (ReadOutcome.data bytes) s =
        emit Ev.seekEnd (if isActionable (writeBytes s.buf bytes bytes.length) then
          flash fs s.gpio_pin (readData bytes s) else readData bytes s) := by
      unfold loopIter
      rw [if_neg (by simp [he])]
    rw [hstep, if_pos (by simp [isActionable, hm]),
      flash_spec fs s.gpio_pin (readData bytes s) hrd hv]
    simp [readData, emit]

/-- C8 amended witness: the marker-bearing ten-byte payload read into the
running exported state yields read and backlog-discard only. -/
theorem c8_amended_holds :
    (loopIter fsAll (ReadOutcome.data key1upBytes) sExp).trace =
      sExp.trace ++ [Ev.readCall (key1upBytes.length : Int), Ev.seekEnd] :=
  (c8_amended fsAll sExp key1upBytes rfl rfl).1 (by decide)

/-- C9: SIGINT delivered at the boundary between the successful export
write and the `isExported = 1` assignment finds the flag still clear: the
handler performs zero unexport writes and exits with code 1, although pin
acquisition has already succeeded (the export write is in the trace) — so
the pin is left exported. -/
theorem c9_eval :
    (stateAfter fsAll true true [] 4 zeroBuf 3).trace = [Ev.exportWrite 4]
    ∧ (stateAfter fsAll true true [] 4 zeroBuf 3).isExported = false
    ∧ (onExit fsAll (stateAfter fsAll true true [] 4 zeroBuf 3)).trace = [Ev.exportWrite 4]
    ∧ (onExit fsAll (stateAfter fsAll true true [] 4 zeroBuf 3)).exited = some 1 := by
  decide

/-- C10: every first positional argument with no leading number parses to
pin 0 via `strtold`, and 0 is in the allow-list, so the argument passes
validation instead of being rejected: the run proceeds exactly as for an
explicit pin 0. -/
theorem c10_nonnumeric (a : String) (fs : Fs) (sockOk connOk : Bool)
    (reads : List ReadOutcome) (buf0 : List Nat) (h : nonNumericArg a = true) :
    strtoldPin a = 0 ∧ validPin (strtoldPin a) = true
    ∧ mainWithArgs fs sockOk connOk reads buf0 [a] =
        mainChecked fs sockOk connOk reads buf0 0 := by
  have h0 := strtoldPin_of_nonNumeric a h
  refine ⟨h0, ?_, ?_⟩
  · rw [h0]; decide
  · show mainChecked fs sockOk connOk reads buf0 (strtoldPin a) = _
    rw [h0]

/-- C10 witness at the non-numeric argument abc. -/
theorem c10_nonnumeric_holds :
    strtoldPin "abc" = 0 ∧ validPin (strtoldPin "abc") = true
    ∧ mainWithArgs fsAll true true [] zeroBuf ["abc"] =
        mainChecked fsAll true true [] zeroBuf 0 :=
  c10_nonnumeric "abc" fsAll true true [] zeroBuf (by decide)

theorem runStmts_append (l1 l2 : List (MState → MState)) (s : MState) :
    runStmts (l1 ++ l2) s = runStmts l2 (runStmts l1 s) := by
  simp [runStmts, List.foldl_append]

/-- C1 counterexample: in a successful run on pin 4, the state reached just
after `connect` has the connection open while the pin is not yet exported;
and in the run where `connect` fails, the process exits with the OS error
code carrying only the error report in its trace — no cleanup ran and no
export or unexport write ever happened. -/
theorem c1_counterexample :
    (stateAfter fsAll true true [] 4 zeroBuf 2).connOpen = true
    ∧ (stateAfter fsAll true true [] 4 zeroBuf 2).isExported = false
    ∧ (mainRun fsAll true false [] 4 zeroBuf).trace = [Ev.stderrReport]
    ∧ (mainRun fsAll true false [] 4 zeroBuf).exited = some 5 := by
  decide

/-- C1 (amended): the event-source connection is opened before pin
acquisition, not after it. In every run in which `connect` fails, the
process exits with the OS error code directly, its trace holding only the
error report — the cleanup routine has not run and the pin has not been
exported; and at every instruction boundary of every run, if an export
write has occurred then the connection is already open. -/
theorem c1_amended (fs : Fs) (reads : List ReadOutcome) (pin : Int) (buf0 : List Nat) :
    mainRun fs true false reads pin buf0 =
      { initState pin buf0 with trace := [Ev.stderrReport], exited := some fs.errno }
    ∧ ∀ sockOk connOk : Bool, ∀ k : Nat, ∀ p : Int,
        Ev.exportWrite p ∈ (stateAfter fs sockOk connOk reads pin buf0 k).trace →
        (stateAfter fs sockOk connOk reads pin buf0 k).connOpen = true := by
  constructor
  · exact runStmts_frozen _ (mainTail_frozen fs reads)
      { initState pin buf0 with trace := [Ev.stderrReport], exited := some fs.errno } rfl
  · intro sockOk connOk k p hmem
    match k with
    | 0 =>
        simp [stateAfter, runStmts, initState] at hmem
    | 1 =>
        cases sockOk <;>
          simp [stateAfter, mainProg, mainStmts, runStmts, socketStep, initState, emit] at hmem
    | Nat.succ (Nat.succ k) =>
        have hsplit : stateAfter fs sockOk connOk reads pin buf0 (k + 2) =
            runStmts (((mainProg fs sockOk connOk reads).drop 2).take k)
              (stateAfter fs sockOk connOk reads pin buf0 2) := by
          unfold stateAfter
          rw [Nat.add_comm k 2, List.take_add, runStmts_append]
        have hdrop : (mainProg fs sockOk connOk reads).drop 2 =
            ((fun s => exportGpio fs s.gpio_pin s) :: setFlagStep ::
             (fun s => setAsOutput fs s.gpio_pin s) :: reads.map (loopIter fs)) := rfl
        have hallF : ∀ f ∈ ((mainProg fs sockOk connOk reads).drop 2).take k,
            ∀ t : MState, t.exited.isSome = true → f t = t := by
          intro f hf
          exact mainTail_frozen fs reads f (hdrop ▸ List.take_subset k _ hf)
        have hallC : ∀ f ∈ ((mainProg fs sockOk connOk reads).drop 2).take k,
            ∀ t : MState, (f t).connOpen = t.connOpen := by
          intro f hf
          exact mainTail_conn fs reads f (hdrop ▸ List.take_subset k _ hf)
        cases sockOk with
        | false =>
            have h2 : stateAfter fs false connOk reads pin buf0 2 =
                { initState pin buf0 with trace := [Ev.stderrReport], exited := some fs.errno } := rfl
            rw [hsplit, runStmts_frozen _ hallF _ (by rw [h2]; rfl), h2] at hmem
            simp at hmem
        | true =>
            cases connOk with
            | false =>
                have h2 : stateAfter fs true false reads pin buf0 2 =
                    { initState pin buf0 with trace := [Ev.stderrReport], exited := some fs.errno } := rfl
                rw [hsplit, runStmts_frozen _ hallF _ (by rw [h2]; rfl), h2] at hmem
                simp at hmem
            | true =>
                have h2 : stateAfter fs true true reads pin buf0 2 =
                    { initState pin buf0 with connOpen := true } := rfl
                rw [hsplit, runStmts_conn _ hallC _, h2]

/-- C1 amended witness: the connect-failure run on pin 4 exits with errno
5, and at the boundary right after the export write of the successful run
the connection is open. -/
theorem c1_amended_holds :
    (mainRun fsAll true false [] 4 zeroBuf).exited = some 5
    ∧ (stateAfter fsAll true true [] 4 zeroBuf 3).connOpen = true := by
  constructor
  · rw [(c1_amended fsAll [] 4 zeroBuf).1]
    rfl
  · exact (c1_amended fsAll [] 4 zeroBuf).2 true true 3 4 (by decide)
